import Mathlib

/-
Verification of scripts/generate_icon.py: a utility that procedurally draws a
rocket-shaped application icon at fixed pixel resolutions and packages the
results into an icns container via the external iconutil tool, with an
ImageMagick fallback path.

Modelling conventions.
Python float expressions (such as size * 0.05) are modelled by exact rational
arithmetic over Rat.  For every size actually used by the script the literals
0.05, 0.3, 0.6, 0.4, 0.25, 0.65, 0.8, 0.2 produce IEEE-double values whose
distance from the exact decimal is below 1.0e-12, while every intermediate
quantity here is at least 1/20 away from the nearest integer unless it is
exactly an integer; hence int() truncation and the floor of the exact rational
agree on all inputs the script feeds them.  Python int() truncates toward
zero; every value it is applied to in this script is nonnegative, where
truncation coincides with floor, so int() is modelled by Rat.floor.  Python
integer floor division a // b is modelled by Int.fdiv.  An image is identified
with the ordered list of drawing commands issued to produce it (the raster is
a deterministic function of that list).  File-system and subprocess side
effects are modelled as an ordered event trace.
-/

attribute [local semireducible] Rat.mul Rat.add Rat.sub Rat.inv

namespace GenerateIcon

/-- RGBA fill color as passed to the drawing primitives. -/
structure Color where
  r : ℕ
  g : ℕ
  b : ℕ
  a : ℕ
deriving DecidableEq

/-- A drawing primitive: either draw.ellipse with a bounding box, or
draw.polygon with a vertex list, each with a fill color.  Coordinates are
rationals because the script passes Python floats for some of them. -/
inductive Shape where
  | ellipse (x0 y0 x1 y1 : ℚ) (fill : Color)
  | polygon (pts : List (ℚ × ℚ)) (fill : Color)
deriving DecidableEq

/-- White background fill (255, 255, 255, 255), line 29. -/
def white : Color := ⟨255, 255, 255, 255⟩

/-- Rocket body red (220, 38, 127, 255), line 45. -/
def bodyRed : Color := ⟨220, 38, 127, 255⟩

/-- Window sky blue (135, 206, 235, 255), line 52. -/
def skyBlue : Color := ⟨135, 206, 235, 255⟩

/-- Fin dark red (178, 34, 34, 255), lines 65 and 73. -/
def finRed : Color := ⟨178, 34, 34, 255⟩

/-- Flame orange (255, 140, 0, 255), line 89. -/
def flameOrange : Color := ⟨255, 140, 0, 255⟩

/-- Python int() applied to a nonnegative value: truncation toward zero,
which on the nonnegative inputs used by the script equals floor. -/
def pyInt (q : ℚ) : ℤ := q.floor

/-- Line 28: padding = int(size * 0.05). -/
def padding (size : ℕ) : ℤ := pyInt ((size : ℚ) * (5 / 100))

/-- Line 29: draw.ellipse([padding, padding, size-padding, size-padding],
fill white). -/
def backgroundShape (size : ℕ) : Shape :=
  Shape.ellipse ((padding size : ℚ)) ((padding size : ℚ))
    ((size : ℚ) - (padding size : ℚ)) ((size : ℚ) - (padding size : ℚ)) white

/-- Line 32: rocket_width = int(size * 0.3). -/
def rocketW (size : ℕ) : ℤ := pyInt ((size : ℚ) * (3 / 10))

/-- Line 33: rocket_height = int(size * 0.6). -/
def rocketH (size : ℕ) : ℤ := pyInt ((size : ℚ) * (6 / 10))

/-- Line 34: rocket_x = (size - rocket_width) // 2. -/
def rocketX (size : ℕ) : ℤ := Int.fdiv ((size : ℤ) - rocketW size) 2

/-- Line 35: rocket_y = (size - rocket_height) // 2. -/
def rocketY (size : ℕ) : ℤ := Int.fdiv ((size : ℤ) - rocketH size) 2

/-- Lines 38 to 44: the five body_points.  The y coordinates of the four
non-nose vertices are Python floats (rocket_height * 0.4 and * 0.8, not
wrapped in int()), hence rational here. -/
def bodyPoints (size : ℕ) : List (ℚ × ℚ) :=
  [ (((rocketX size + Int.fdiv (rocketW size) 2 : ℤ) : ℚ), ((rocketY size : ℚ))),
    (((rocketX size + rocketW size : ℤ) : ℚ), (rocketY size : ℚ) + (rocketH size : ℚ) * (4 / 10)),
    (((rocketX size + rocketW size : ℤ) : ℚ), (rocketY size : ℚ) + (rocketH size : ℚ) * (8 / 10)),
    (((rocketX size : ℤ) : ℚ), (rocketY size : ℚ) + (rocketH size : ℚ) * (8 / 10)),
    (((rocketX size : ℤ) : ℚ), (rocketY size : ℚ) + (rocketH size : ℚ) * (4 / 10)) ]

/-- Line 48: window_size = int(rocket_width * 0.4). -/
def windowSize (size : ℕ) : ℤ := pyInt ((rocketW size : ℚ) * (4 / 10))

/-- Line 49: window_x = rocket_x + (rocket_width - window_size) // 2. -/
def windowX (size : ℕ) : ℤ := rocketX size + Int.fdiv (rocketW size - windowSize size) 2

/-- Line 50: window_y = rocket_y + int(rocket_height * 0.25). -/
def windowY (size : ℕ) : ℤ := rocketY size + pyInt ((rocketH size : ℚ) * (25 / 100))

/-- Lines 51 to 52: the window ellipse with its bounding box and fill. -/
def windowShape (size : ℕ) : Shape :=
  Shape.ellipse ((windowX size : ℚ)) ((windowY size : ℚ))
    ((windowX size + windowSize size : ℤ) : ℚ) ((windowY size + windowSize size : ℤ) : ℚ) skyBlue

/-- Line 55: fin_width = int(rocket_width * 0.3). -/
def finW (size : ℕ) : ℤ := pyInt ((rocketW size : ℚ) * (3 / 10))

/-- Line 56: fin_height = int(rocket_height * 0.25). -/
def finH (size : ℕ) : ℤ := pyInt ((rocketH size : ℚ) * (25 / 100))

/-- Line 57: fin_y = rocket_y + int(rocket_height * 0.65). -/
def finY (size : ℕ) : ℤ := rocketY size + pyInt ((rocketH size : ℚ) * (65 / 100))

/-- Lines 60 to 64: left_fin vertex list. -/
def leftFinPoints (size : ℕ) : List (ℚ × ℚ) :=
  [ (((rocketX size : ℤ) : ℚ), ((finY size : ℤ) : ℚ)),
    (((rocketX size - finW size : ℤ) : ℚ), ((finY size + finH size : ℤ) : ℚ)),
    (((rocketX size : ℤ) : ℚ), ((finY size + finH size : ℤ) : ℚ)) ]

/-- Lines 68 to 72: right_fin vertex list. -/
def rightFinPoints (size : ℕ) : List (ℚ × ℚ) :=
  [ (((rocketX size + rocketW size : ℤ) : ℚ), ((finY size : ℤ) : ℚ)),
    (((rocketX size + rocketW size + finW size : ℤ) : ℚ), ((finY size + finH size : ℤ) : ℚ)),
    (((rocketX size + rocketW size : ℤ) : ℚ), ((finY size + finH size : ℤ) : ℚ)) ]

/-- Line 76: flame_width = int(rocket_width * 0.8). -/
def flameW (size : ℕ) : ℤ := pyInt ((rocketW size : ℚ) * (8 / 10))

/-- Line 77: flame_height = int(rocket_height * 0.2). -/
def flameH (size : ℕ) : ℤ := pyInt ((rocketH size : ℚ) * (2 / 10))

/-- Line 78: flame_x = rocket_x + (rocket_width - flame_width) // 2. -/
def flameX (size : ℕ) : ℤ := rocketX size + Int.fdiv (rocketW size - flameW size) 2

/-- Line 79: flame_y = rocket_y + int(rocket_height * 0.8). -/
def flameY (size : ℕ) : ℤ := rocketY size + pyInt ((rocketH size : ℚ) * (8 / 10))

/-- Lines 81 to 88: the six flame_points. -/
def flamePoints (size : ℕ) : List (ℚ × ℚ) :=
  [ (((flameX size + Int.fdiv (flameW size) 2 : ℤ) : ℚ), ((flameY size + flameH size : ℤ) : ℚ)),
    (((flameX size : ℤ) : ℚ), ((flameY size : ℤ) : ℚ)),
    (((flameX size + Int.fdiv (flameW size) 4 : ℤ) : ℚ), ((flameY size - Int.fdiv (flameH size) 4 : ℤ) : ℚ)),
    (((flameX size + Int.fdiv (flameW size) 2 : ℤ) : ℚ), ((flameY size : ℤ) : ℚ)),
    (((flameX size + Int.fdiv (flameW size * 3) 4 : ℤ) : ℚ), ((flameY size - Int.fdiv (flameH size) 4 : ℤ) : ℚ)),
    (((flameX size + flameW size : ℤ) : ℚ), ((flameY size : ℤ) : ℚ)) ]

/-- Lines 24 to 89: the ordered drawing commands issued for the standard
resolution image of the given canvas side. -/
def create_icon_shapes (size : ℕ) : List Shape :=
  [ backgroundShape size,
    Shape.polygon (bodyPoints size) bodyRed,
    windowShape size,
    Shape.polygon (leftFinPoints size) finRed,
    Shape.polygon (rightFinPoints size) finRed,
    Shape.polygon (flamePoints size) flameOrange ]

/-- Line 102: padding_2x = int(size_2x * 0.05) with size_2x = size * 2. -/
def padding_2x (size : ℕ) : ℤ := pyInt (((size * 2 : ℕ) : ℚ) * (5 / 100))

/-- Line 103: the 2x background ellipse. -/
def backgroundShape_2x (size : ℕ) : Shape :=
  Shape.ellipse ((padding_2x size : ℚ)) ((padding_2x size : ℚ))
    (((size * 2 : ℕ) : ℚ) - (padding_2x size : ℚ)) (((size * 2 : ℕ) : ℚ) - (padding_2x size : ℚ)) white

/-- Line 106: rocket_width_2x = int(size_2x * 0.3). -/
def rocketW_2x (size : ℕ) : ℤ := pyInt (((size * 2 : ℕ) : ℚ) * (3 / 10))

/-- Line 107: rocket_height_2x = int(size_2x * 0.6). -/
def rocketH_2x (size : ℕ) : ℤ := pyInt (((size * 2 : ℕ) : ℚ) * (6 / 10))

/-- Line 108: rocket_x_2x = (size_2x - rocket_width_2x) // 2. -/
def rocketX_2x (size : ℕ) : ℤ := Int.fdiv (((size * 2 : ℕ) : ℤ) - rocketW_2x size) 2

/-- Line 109: rocket_y_2x = (size_2x - rocket_height_2x) // 2. -/
def rocketY_2x (size : ℕ) : ℤ := Int.fdiv (((size * 2 : ℕ) : ℤ) - rocketH_2x size) 2

/-- Lines 112 to 118: body_points_2x. -/
def bodyPoints_2x (size : ℕ) : List (ℚ × ℚ) :=
  [ (((rocketX_2x size + Int.fdiv (rocketW_2x size) 2 : ℤ) : ℚ), ((rocketY_2x size : ℚ))),
    (((rocketX_2x size + rocketW_2x size : ℤ) : ℚ), (rocketY_2x size : ℚ) + (rocketH_2x size : ℚ) * (4 / 10)),
    (((rocketX_2x size + rocketW_2x size : ℤ) : ℚ), (rocketY_2x size : ℚ) + (rocketH_2x size : ℚ) * (8 / 10)),
    (((rocketX_2x size : ℤ) : ℚ), (rocketY_2x size : ℚ) + (rocketH_2x size : ℚ) * (8 / 10)),
    (((rocketX_2x size : ℤ) : ℚ), (rocketY_2x size : ℚ) + (rocketH_2x size : ℚ) * (4 / 10)) ]

/-- Line 122: window_size_2x = int(rocket_width_2x * 0.4). -/
def windowSize_2x (size : ℕ) : ℤ := pyInt ((rocketW_2x size : ℚ) * (4 / 10))

/-- Line 123: window_x_2x = rocket_x_2x + (rocket_width_2x - window_size_2x) // 2. -/
def windowX_2x (size : ℕ) : ℤ := rocketX_2x size + Int.fdiv (rocketW_2x size - windowSize_2x size) 2

/-- Line 124: window_y_2x = rocket_y_2x + int(rocket_height_2x * 0.25). -/
def windowY_2x (size : ℕ) : ℤ := rocketY_2x size + pyInt ((rocketH_2x size : ℚ) * (25 / 100))

/-- Lines 125 to 126: the 2x window ellipse. -/
def windowShape_2x (size : ℕ) : Shape :=
  Shape.ellipse ((windowX_2x size : ℚ)) ((windowY_2x size : ℚ))
    ((windowX_2x size + windowSize_2x size : ℤ) : ℚ) ((windowY_2x size + windowSize_2x size : ℤ) : ℚ) skyBlue

/-- Line 129: fin_width_2x = int(rocket_width_2x * 0.3). -/
def finW_2x (size : ℕ) : ℤ := pyInt ((rocketW_2x size : ℚ) * (3 / 10))

/-- Line 130: fin_height_2x = int(rocket_height_2x * 0.25). -/
def finH_2x (size : ℕ) : ℤ := pyInt ((rocketH_2x size : ℚ) * (25 / 100))

/-- Line 131: fin_y_2x = rocket_y_2x + int(rocket_height_2x * 0.65). -/
def finY_2x (size : ℕ) : ℤ := rocketY_2x size + pyInt ((rocketH_2x size : ℚ) * (65 / 100))

/-- Lines 133 to 137: left_fin_2x. -/
def leftFinPoints_2x (size : ℕ) : List (ℚ × ℚ) :=
  [ (((rocketX_2x size : ℤ) : ℚ), ((finY_2x size : ℤ) : ℚ)),
    (((rocketX_2x size - finW_2x size : ℤ) : ℚ), ((finY_2x size + finH_2x size : ℤ) : ℚ)),
    (((rocketX_2x size : ℤ) : ℚ), ((finY_2x size + finH_2x size : ℤ) : ℚ)) ]

/-- Lines 140 to 144: right_fin_2x. -/
def rightFinPoints_2x (size : ℕ) : List (ℚ × ℚ) :=
  [ (((rocketX_2x size + rocketW_2x size : ℤ) : ℚ), ((finY_2x size : ℤ) : ℚ)),
    (((rocketX_2x size + rocketW_2x size + finW_2x size : ℤ) : ℚ), ((finY_2x size + finH_2x size : ℤ) : ℚ)),
    (((rocketX_2x size + rocketW_2x size : ℤ) : ℚ), ((finY_2x size + finH_2x size : ℤ) : ℚ)) ]

/-- Line 148: flame_width_2x = int(rocket_width_2x * 0.8). -/
def flameW_2x (size : ℕ) : ℤ := pyInt ((rocketW_2x size : ℚ) * (8 / 10))

/-- Line 149: flame_height_2x = int(rocket_height_2x * 0.2). -/
def flameH_2x (size : ℕ) : ℤ := pyInt ((rocketH_2x size : ℚ) * (2 / 10))

/-- Line 150: flame_x_2x = rocket_x_2x + (rocket_width_2x - flame_width_2x) // 2. -/
def flameX_2x (size : ℕ) : ℤ := rocketX_2x size + Int.fdiv (rocketW_2x size - flameW_2x size) 2

/-- Line 151: flame_y_2x = rocket_y_2x + int(rocket_height_2x * 0.8). -/
def flameY_2x (size : ℕ) : ℤ := rocketY_2x size + pyInt ((rocketH_2x size : ℚ) * (8 / 10))

/-- Lines 153 to 160: flame_points_2x. -/
def flamePoints_2x (size : ℕ) : List (ℚ × ℚ) :=
  [ (((flameX_2x size + Int.fdiv (flameW_2x size) 2 : ℤ) : ℚ), ((flameY_2x size + flameH_2x size : ℤ) : ℚ)),
    (((flameX_2x size : ℤ) : ℚ), ((flameY_2x size : ℤ) : ℚ)),
    (((flameX_2x size + Int.fdiv (flameW_2x size) 4 : ℤ) : ℚ), ((flameY_2x size - Int.fdiv (flameH_2x size) 4 : ℤ) : ℚ)),
    (((flameX_2x size + Int.fdiv (flameW_2x size) 2 : ℤ) : ℚ), ((flameY_2x size : ℤ) : ℚ)),
    (((flameX_2x size + Int.fdiv (flameW_2x size * 3) 4 : ℤ) : ℚ), ((flameY_2x size - Int.fdiv (flameH_2x size) 4 : ℤ) : ℚ)),
    (((flameX_2x size + flameW_2x size : ℤ) : ℚ), ((flameY_2x size : ℤ) : ℚ)) ]

/-- Lines 96 to 161: the ordered drawing commands issued for the double
density image of the given base size, transcribed from the duplicated 2x
block of the source. -/
def create_icon_shapes_2x (size : ℕ) : List Shape :=
  [ backgroundShape_2x size,
    Shape.polygon (bodyPoints_2x size) bodyRed,
    windowShape_2x size,
    Shape.polygon (leftFinPoints_2x size) finRed,
    Shape.polygon (rightFinPoints_2x size) finRed,
    Shape.polygon (flamePoints_2x size) flameOrange ]

/-- Observable side effects of the script, in program order: creation of the
staging iconset directory, a PNG write into it, the iconutil invocation, the
creation of AppIcon.icns in the working directory, a printed message, and the
recursive removal of the staging directory. -/
inductive Event where
  | mkStagingDir
  | writePng (name : String)
  | runIconutil
  | writeIcns
  | printMsg (msg : String)
  | removeStaging
deriving DecidableEq

/-- Outcome of the subprocess.run iconutil invocation on line 168: normal
exit, nonzero exit raising subprocess.CalledProcessError (check=True), or any
other exception such as FileNotFoundError when the executable is absent. -/
inductive IconutilOutcome where
  | success
  | calledProcessError
  | otherError (msg : String)
deriving DecidableEq

/-- Message printed on line 169 and again on line 228. -/
def msgIconGenerated : String := "Icon generated: AppIcon.icns"

/-- Message printed on line 171 when iconutil exits nonzero. -/
def msgIcnsError : String := "Error creating icns file"

/-- Message printed on line 189 when entering the fallback path. -/
def msgFallbackIntro : String := "PIL/Pillow not installed. Creating a basic icon instead..."

/-- Message printed on line 185 when the primary path raises. -/
def msgPilError : String := "Error with PIL method: "

/-- Line 20 and line 196: the fixed ascending list of base sizes. -/
def sizes : List ℕ := [16, 32, 64, 128, 256, 512, 1024]

/-- Line 92: the standard resolution file name for a base size. -/
def pngName (s : ℕ) : String := "icon_" ++ toString s ++ "x" ++ toString s ++ ".png"

/-- Line 163: the double density file name for a base size. -/
def png2xName (s : ℕ) : String := "icon_" ++ toString s ++ "x" ++ toString s ++ "@2x.png"

/-- Files written for one base size: the standard PNG always (line 93), the
2x PNG exactly when size < 1024 (lines 96 and 164). -/
def sizeFiles (s : ℕ) : List String :=
  if s < 1024 then [pngName s, png2xName s] else [pngName s]

/-- All PNG file names written by one full pass over the size list, in
program order. -/
def allPngNames : List String := sizes.foldr (fun s acc => sizeFiles s ++ acc) []

/-- The PNG write events of one full rendering pass, lines 22 to 164. -/
def renderEvents : List Event := allPngNames.map Event.writePng

/-- Lines 13 to 177: create_rocket_icon as an event trace plus a result.
renderExc = some e models an exception raised by the drawing loop itself
(the loop has no surrounding try, so the staging directory is created but
nothing protects cleanup and the exception propagates at once); renderExc =
none runs the loop to completion and then the iconutil invocation inside
try/except CalledProcessError/finally.  The result is ok true on success,
ok false after the except branch (return False, line 172), and error e when
an exception escapes (the finally block on lines 173 to 175 still removes
the staging directory before propagation). -/
def create_rocket_icon (renderExc : Option String) (outcome : IconutilOutcome) :
    List Event × Except String Bool :=
  match renderExc with
  | some e => ([Event.mkStagingDir], Except.error e)
  | none =>
    match outcome with
    | IconutilOutcome.success =>
        (Event.mkStagingDir :: renderEvents ++
          [Event.runIconutil, Event.writeIcns, Event.printMsg msgIconGenerated,
           Event.removeStaging], Except.ok true)
    | IconutilOutcome.calledProcessError =>
        (Event.mkStagingDir :: renderEvents ++
          [Event.runIconutil, Event.printMsg msgIcnsError, Event.removeStaging],
         Except.ok false)
    | IconutilOutcome.otherError e =>
        (Event.mkStagingDir :: renderEvents ++
          [Event.runIconutil, Event.removeStaging], Except.error e)

/-- Lines 188 to 228: the fallback path.  It prints the intro message,
creates a staging directory, issues one external drawing command per file
(modelled as the write of that file; the tool is assumed to produce its
target), runs iconutil WITHOUT check=True and without any try/except (line
226), removes the staging directory (line 227), and prints the success
message unconditionally (line 228).  iconutilFails = true models a failing
iconutil invocation: no icns file appears, but since the call is not
checked, no exception is raised and control continues. -/
def fallback_main (iconutilFails : Bool) : List Event :=
  Event.printMsg msgFallbackIntro :: Event.mkStagingDir :: renderEvents ++
    Event.runIconutil ::
      ((if iconutilFails then [] else [Event.writeIcns]) ++
        [Event.removeStaging, Event.printMsg msgIconGenerated])

/-- Lines 179 to 228: the top level.  If PIL imported, create_rocket_icon is
called inside try/except Exception; on an escaping exception the handler
prints the error and clears PIL_AVAILABLE, after which the fallback block
runs.  If create_rocket_icon returns (True or False), PIL_AVAILABLE stays
set and the fallback block is skipped.  Without PIL the fallback block runs
directly. -/
def run_main (pilAvailable : Bool) (renderExc : Option String)
    (outcome : IconutilOutcome) (fallbackIconutilFails : Bool) : List Event :=
  if pilAvailable then
    match create_rocket_icon renderExc outcome with
    | (tr, Except.ok _) => tr
    | (tr, Except.error e) =>
        tr ++ Event.printMsg (msgPilError ++ e) :: fallback_main fallbackIconutilFails
  else fallback_main fallbackIconutilFails

/-- Messages printed by a trace, in order. -/
def printsOf (tr : List Event) : List String :=
  tr.foldr (fun e acc => match e with | Event.printMsg m => m :: acc | _ => acc) []

/-- PNG file names written by a trace, in order. -/
def pngWritesOf (tr : List Event) : List String :=
  tr.foldr (fun e acc => match e with | Event.writePng n => n :: acc | _ => acc) []

/-- Ambient state a Python process could consult: a random source, a clock,
and the file system.  The renderer is supposed to read none of it. -/
structure Env where
  randomSource : ℕ → ℕ
  systemTime : ℕ
  fileContents : String → Option String

/-- The renderer contract of one loop iteration, threaded with the ambient
environment: scale 2 selects the 2x block (lines 96 to 161), any other scale
the standard block (lines 24 to 93).  The translation of either block takes
no data from env, which is the content of the determinism claim. -/
def renderImage (size scale : ℕ) (env : Env) : List Shape :=
  if scale = 2 then create_icon_shapes_2x size else create_icon_shapes size

/-- First components of a vertex list. -/
def xsOf (pts : List (ℚ × ℚ)) : List ℚ := pts.map Prod.fst

/-- Second components of a vertex list. -/
def ysOf (pts : List (ℚ × ℚ)) : List ℚ := pts.map Prod.snd

/-- Maximum of a rational list, 0 when empty (only applied to nonempty
lists). -/
def maxQ : List ℚ → ℚ
  | [] => 0
  | x :: xs => xs.foldl max x

/-- Minimum of a rational list, 0 when empty (only applied to nonempty
lists). -/
def minQ : List ℚ → ℚ
  | [] => 0
  | x :: xs => xs.foldl min x

/-- Width of the axis-aligned bounding box of a vertex list. -/
def bboxWidth (pts : List (ℚ × ℚ)) : ℚ := maxQ (xsOf pts) - minQ (xsOf pts)

/-- Height of the axis-aligned bounding box of a vertex list. -/
def bboxHeight (pts : List (ℚ × ℚ)) : ℚ := maxQ (ysOf pts) - minQ (ysOf pts)

/-- Width to height ratio of the rocket body layout rectangle, from lines 32
and 33: int(size * 0.3) / int(size * 0.6). -/
def bodyRatio (size : ℕ) : ℚ := ((rocketW size : ℚ)) / ((rocketH size : ℚ))

/-- The y coordinate of the two body side vertices, line 40: a Python float,
rocket_y + rocket_height * (4 / 10), passed to draw.polygon untruncated. -/
def bodySideY (size : ℕ) : ℚ := (rocketY size : ℚ) + (rocketH size : ℚ) * (4 / 10)

/-- The y coordinate of the two body bottom vertices, lines 41 and 42:
rocket_y + rocket_height * (8 / 10), passed to draw.polygon untruncated. -/
def bodyBottomY (size : ℕ) : ℚ := (rocketY size : ℚ) + (rocketH size : ℚ) * (8 / 10)

/-- True when a rational is an integer. -/
def isIntCoord (q : ℚ) : Bool := q.den == 1

/-- All coordinates fed to draw.polygon by one shape: x values then y values
for a polygon, nothing for an ellipse. -/
def polygonCoordList : Shape → List ℚ
  | Shape.polygon pts _ => xsOf pts ++ ysOf pts
  | Shape.ellipse _ _ _ _ _ => []

/-- All coordinates fed to draw.polygon in one standard render. -/
def polygonCoords (size : ℕ) : List ℚ :=
  ((create_icon_shapes size).map polygonCoordList).foldr (fun a b => a ++ b) []

/-- All bounding box coordinates fed to draw.ellipse by one shape. -/
def ellipseCoordList : Shape → List ℚ
  | Shape.ellipse x0 y0 x1 y1 _ => [x0, y0, x1, y1]
  | Shape.polygon _ _ => []

/-- All bounding box coordinates fed to draw.ellipse in one standard
render. -/
def ellipseCoords (size : ℕ) : List ℚ :=
  ((create_icon_shapes size).map ellipseCoordList).foldr (fun a b => a ++ b) []

/-- Notable points of a shape: the four corners of an ellipse bounding box,
or the vertices of a polygon. -/
def shapeVertices : Shape → List (ℚ × ℚ)
  | Shape.ellipse x0 y0 x1 y1 _ => [(x0, y0), (x1, y0), (x0, y1), (x1, y1)]
  | Shape.polygon pts _ => pts

/-- Vertices of every shape drawn after the background circle in one
standard render. -/
def rocketVertices (size : ℕ) : List (ℚ × ℚ) :=
  (((create_icon_shapes size).drop 1).map shapeVertices).foldr (fun a b => a ++ b) []

/-- Vertices of every shape drawn after the background circle in one 2x
render. -/
def rocketVertices_2x (size : ℕ) : List (ℚ × ℚ) :=
  (((create_icon_shapes_2x size).drop 1).map shapeVertices).foldr (fun a b => a ++ b) []

/-- True when a point lies inside the white background circle of a canvas of
the given side: center (size/2, size/2), radius size/2 - padding. -/
def insideBadge (size : ℕ) (p : ℚ × ℚ) : Bool :=
  decide ((p.1 - (size : ℚ) / 2) * (p.1 - (size : ℚ) / 2) +
      (p.2 - (size : ℚ) / 2) * (p.2 - (size : ℚ) / 2) ≤
    ((size : ℚ) / 2 - (padding size : ℚ)) * ((size : ℚ) / 2 - (padding size : ℚ)))

/-- Amended body geometry for one canvas side: the body is the second drawn
shape, a 5 vertex polygon in the fixed red, whose bounding box has width
rocket_width but height only 0.8 * rocket_height, whose top left corner is
the top left corner of the centered layout rectangle, and whose vertex
y values are the three levels rocket_y, rocket_y + 0.4 * rocket_height and
rocket_y + 0.8 * rocket_height, with the nose at the truncated horizontal
center of the rectangle. -/
abbrev bodyGeomSpec (s : ℕ) : Prop :=
  (create_icon_shapes s)[1]? = some (Shape.polygon (bodyPoints s) bodyRed)
  ∧ (bodyPoints s).length = 5
  ∧ bboxWidth (bodyPoints s) = ((rocketW s : ℚ))
  ∧ bboxHeight (bodyPoints s) = (8 / 10) * ((rocketH s : ℚ))
  ∧ minQ (xsOf (bodyPoints s)) = ((rocketX s : ℚ))
  ∧ minQ (ysOf (bodyPoints s)) = ((rocketY s : ℚ))
  ∧ (ysOf (bodyPoints s)).all
      (fun y => y == ((rocketY s : ℚ)) || y == bodySideY s || y == bodyBottomY s) = true
  ∧ (bodyPoints s)[0]? = some (((rocketX s + Int.fdiv (rocketW s) 2 : ℤ) : ℚ), ((rocketY s : ℚ)))

/-- Amended ratio property for one canvas side: the truncated body width is
the floor of half the truncated body height, so the ratio equals 1/2 only up
to truncation error, which is at most 1/18 over the size set. -/
abbrev ratioSpec (s : ℕ) : Prop :=
  rocketW s = Int.fdiv (rocketH s) 2 ∧ |bodyRatio s - 1 / 2| ≤ 1 / 18

/-- Amended integrality property for one canvas side: every ellipse bounding
coordinate is an integer, and every polygon vertex coordinate is an integer
except the body side and bottom y values, which are genuinely non-integral
floats. -/
abbrev coordIntSpec (s : ℕ) : Prop :=
  (ellipseCoords s).all isIntCoord = true
  ∧ (polygonCoords s).all
      (fun q => isIntCoord q || q == bodySideY s || q == bodyBottomY s) = true
  ∧ isIntCoord (bodySideY s) = false
  ∧ isIntCoord (bodyBottomY s) = false

/-- Containment property for one base size: every vertex of every shape
drawn after the background lies inside the white badge circle, both in the
standard render and, when a 2x variant exists (size < 1024), in the 2x
render on its doubled canvas. -/
abbrev verticesInsideSpec (s : ℕ) : Prop :=
  (rocketVertices s).all (insideBadge s) = true
  ∧ (s < 1024 → (rocketVertices_2x s).all (insideBadge (s * 2)) = true)

/-- C1: with PIL available and the iconutil invocation succeeding, the full
run creates the staging directory, writes exactly the 13 PNG files named
icon_SxS.png for the seven base sizes and icon_SxS@2x.png for the six sizes
below 1024 (no @2x file for 1024), then invokes iconutil which produces
AppIcon.icns, prints the success message and removes the staging directory
as the final action. -/
theorem primary_success_produces_13_pngs_icns_and_cleanup (fb : Bool) :
    run_main true none IconutilOutcome.success fb =
      [ Event.mkStagingDir,
        Event.writePng ("icon_16x16.png"), Event.writePng ("icon_16x16@2x.png"),
        Event.writePng ("icon_32x32.png"), Event.writePng ("icon_32x32@2x.png"),
        Event.writePng ("icon_64x64.png"), Event.writePng ("icon_64x64@2x.png"),
        Event.writePng ("icon_128x128.png"), Event.writePng ("icon_128x128@2x.png"),
        Event.writePng ("icon_256x256.png"), Event.writePng ("icon_256x256@2x.png"),
        Event.writePng ("icon_512x512.png"), Event.writePng ("icon_512x512@2x.png"),
        Event.writePng ("icon_1024x1024.png"),
        Event.runIconutil, Event.writeIcns, Event.printMsg msgIconGenerated,
        Event.removeStaging ]
    ∧ allPngNames.length = 13
    ∧ allPngNames.Nodup
    ∧ ("icon_1024x1024@2x.png" : String) ∉ allPngNames
    ∧ (run_main true none IconutilOutcome.success fb).getLast? = some Event.removeStaging := by
  cases fb <;> exact ⟨by decide, by decide, by decide, by decide, by decide⟩

/-- C2 counterexample: at size 16 the bounding box of the body polygon has
height 36/5, not int(0.6 * 16) = 9 as the claim states, and the polygon is
not vertically centered on the canvas (the sum of its extreme y values is
13.2, not 16). -/
theorem body_bbox_height_counterexample :
    bboxHeight (bodyPoints 16) = 36 / 5
    ∧ ((rocketH 16 : ℚ)) = 9
    ∧ bboxHeight (bodyPoints 16) ≠ ((rocketH 16 : ℚ))
    ∧ minQ (ysOf (bodyPoints 16)) + maxQ (ysOf (bodyPoints 16)) ≠ (16 : ℚ) := by
  decide

/-- C2 amended: for every size in the base size set the rocket body is a
5 vertex polygon filled (220, 38, 127, 255), drawn inside the centered
layout rectangle of width int(0.3 s) and height int(0.6 s); its bounding box
has exactly that width but height 0.8 * int(0.6 s), its top left corner is
the rectangle corner ((s - w) // 2, (s - h) // 2), its vertex y values are
the nose level, the 40 percent level and the 80 percent level of the rocket
height, and the nose sits at the truncated horizontal center. -/
theorem body_polygon_geometry_amended (s : ℕ) (hs : s ∈ sizes) : bodyGeomSpec s := by
  revert s
  decide

/-- C2 witness: the amended body geometry property instantiated at size
16. -/
theorem body_polygon_geometry_amended_witness : bodyGeomSpec 16 :=
  body_polygon_geometry_amended 16 (by decide)

/-- C3: the 2x block of the source computes, formula for formula, the same
shape list as the standard block applied to the doubled canvas side, so the
@2x image of base size s is identical to the standard image at size 2s. -/
theorem render2x_equals_render_double (size : ℕ) :
    create_icon_shapes_2x size = create_icon_shapes (2 * size) := by
  rw [Nat.mul_comm]
  rfl

/-- C4 counterexample: in the fallback path with a failing iconutil
invocation no icns file appears, yet no error message is printed (the only
messages are the intro line and the unconditional success line), no failure
is signalled, while the staging directory is still removed.  This refutes
the claim that a packaging failure is reported and signalled in both
paths. -/
theorem fallback_ignores_iconutil_failure :
    Event.writeIcns ∉ fallback_main true
    ∧ printsOf (fallback_main true) = [msgFallbackIntro, msgIconGenerated]
    ∧ msgIcnsError ∉ printsOf (fallback_main true)
    ∧ Event.printMsg msgIconGenerated ∈ fallback_main true
    ∧ Event.removeStaging ∈ fallback_main true := by
  decide

/-- C4 amended: in the primary path a nonzero iconutil exit prints the error
message, returns False and still removes the staging directory (as does the
success path); in the fallback path the staging directory is likewise always
removed, but an iconutil failure is neither reported nor signalled and the
success message is printed regardless. -/
theorem iconutil_failure_handling_amended (fb : Bool) :
    (create_rocket_icon none IconutilOutcome.calledProcessError).2 = Except.ok false
    ∧ msgIcnsError ∈ printsOf (create_rocket_icon none IconutilOutcome.calledProcessError).1
    ∧ Event.removeStaging ∈ (create_rocket_icon none IconutilOutcome.calledProcessError).1
    ∧ Event.writeIcns ∉ (create_rocket_icon none IconutilOutcome.calledProcessError).1
    ∧ Event.removeStaging ∈ (create_rocket_icon none IconutilOutcome.success).1
    ∧ Event.removeStaging ∈ fallback_main fb
    ∧ printsOf (fallback_main fb) = [msgFallbackIntro, msgIconGenerated] := by
  cases fb <;>
    exact ⟨rfl, by decide, by decide, by decide, by decide, by decide, by decide⟩

/-- C5: the renderer consults no ambient state: for any two environments
(random source, clock, file system) the drawing command list produced for a
given size and scale is identical, hence two invocations with identical
inputs produce identical images. -/
theorem render_env_independent (size scale : ℕ) (env1 env2 : Env) :
    renderImage size scale env1 = renderImage size scale env2 := rfl

/-- C6 counterexample: the truncated ratio int(0.3 s) / int(0.6 s) is 4/9 at
size 16 but 1/2 at size 64, so it is neither invariant across the size set
nor equal to 0.3/0.6 everywhere. -/
theorem body_ratio_not_invariant :
    bodyRatio 16 = 4 / 9
    ∧ bodyRatio 64 = 1 / 2
    ∧ bodyRatio 16 ≠ bodyRatio 64
    ∧ bodyRatio 16 ≠ (3 / 10 : ℚ) / (6 / 10) := by
  decide

/-- C6 amended: for every size in the base size set the truncated width is
the floor of half the truncated height, so the bounding ratio equals 1/2 up
to truncation, with error at most 1/18 (attained at size 16). -/
theorem body_ratio_half_up_to_truncation (s : ℕ) (hs : s ∈ sizes) : ratioSpec s := by
  revert s
  decide

/-- C6 witness: the amended ratio property instantiated at size 16. -/
theorem body_ratio_half_up_to_truncation_witness : ratioSpec 16 :=
  body_ratio_half_up_to_truncation 16 (by decide)

/-- C7 counterexample: at size 16 the body side vertices have y coordinate
rocket_y + rocket_height * 0.4 = 33/5, a non-integral value passed straight
to draw.polygon, so not every vertex coordinate is truncated to an integer
before drawing. -/
theorem body_y_coordinate_not_integer :
    bodySideY 16 ∈ polygonCoords 16
    ∧ bodySideY 16 = 33 / 5
    ∧ isIntCoord (bodySideY 16) = false
    ∧ (polygonCoords 16).all isIntCoord = false := by
  decide

/-- C7 amended: for every size in the base size set all dimensions and all
drawn coordinates are integers, except the body polygon y values at the 40
and 80 percent levels of the rocket height, which are computed as floats
without truncation and are non-integral at every size in the set. -/
theorem coordinates_integer_except_body_y (s : ℕ) (hs : s ∈ sizes) : coordIntSpec s := by
  revert s
  decide

/-- C7 witness: the amended integrality property instantiated at size 16. -/
theorem coordinates_integer_except_body_y_witness : coordIntSpec 16 :=
  coordinates_integer_except_body_y 16 (by decide)

/-- C8: an exception escaping the primary rendering path is caught by the
top level handler, which prints the error and runs the fallback block; the
fallback writes exactly the same list of PNG file names that a successful
primary run writes. -/
theorem primary_exception_triggers_fallback_same_files
    (e : String) (outcome : IconutilOutcome) (fb : Bool) :
    run_main true (some e) outcome fb =
      Event.mkStagingDir :: Event.printMsg (msgPilError ++ e) :: fallback_main fb
    ∧ pngWritesOf (fallback_main fb) =
        pngWritesOf (create_rocket_icon none IconutilOutcome.success).1
    ∧ pngWritesOf (fallback_main fb) = allPngNames := by
  refine ⟨rfl, ?_, ?_⟩ <;> cases fb <;> decide

/-- C9: for every base size, every vertex of every shape drawn after the
background (body polygon, window ellipse bounding box corners, both fins,
flame) lies inside the white badge circle of radius size/2 - padding around
the canvas center, in the standard render and in the 2x render where one
exists. -/
theorem rocket_vertices_inside_badge (s : ℕ) (hs : s ∈ sizes) : verticesInsideSpec s := by
  revert s
  decide

/-- C9 witness: the containment property instantiated at size 16. -/
theorem rocket_vertices_inside_badge_witness : verticesInsideSpec 16 :=
  rocket_vertices_inside_badge 16 (by decide)

/-- C10: when the iconutil invocation raises anything other than
CalledProcessError, create_rocket_icon does not return False: the finally
block still removes the staging directory, the exception propagates out
without the packaging error message, and the top level handler then runs the
fallback path after printing the PIL error line. -/
theorem iconutil_oserror_propagates_to_fallback (msg : String) (fb : Bool) :
    (create_rocket_icon none (IconutilOutcome.otherError msg)).2 = Except.error msg
    ∧ (∀ b : Bool, (create_rocket_icon none (IconutilOutcome.otherError msg)).2 ≠ Except.ok b)
    ∧ Event.removeStaging ∈ (create_rocket_icon none (IconutilOutcome.otherError msg)).1
    ∧ msgIcnsError ∉ printsOf (create_rocket_icon none (IconutilOutcome.otherError msg)).1
    ∧ run_main true none (IconutilOutcome.otherError msg) fb =
        (create_rocket_icon none (IconutilOutcome.otherError msg)).1
          ++ Event.printMsg (msgPilError ++ msg) :: fallback_main fb := by
  refine ⟨rfl, ?_, ?_, ?_, rfl⟩
  · intro b h
    exact Except.noConfusion h
  · show Event.removeStaging ∈
      Event.mkStagingDir :: renderEvents ++ [Event.runIconutil, Event.removeStaging]
    decide
  · show msgIcnsError ∉
      printsOf (Event.mkStagingDir :: renderEvents ++ [Event.runIconutil, Event.removeStaging])
    decide

end GenerateIcon
